import Mathlib

/-!
Verification of the LIN master state machine of
`LIN_master_HardwareSerial_ESP32.cpp` (class `LIN_Master_HardwareSerial_ESP32`).

The three protected step methods `_sendBreak`, `_sendFrame` and
`_receiveFrame` are shallowly embedded as pure functions over an explicit
machine state (`Master`), an explicit transport state (`Serial`) and the
current value of the microsecond clock (`micros()` passed as `now`).
Each step additionally returns the ordered list of transport operations it
performed (`Effect`), so that claims about "no transport I/O" and about the
order of entry actions can be stated.

All timestamps are `uint32_t` in the source; the wrapping subtraction
`micros() - t` is modelled by `u32sub`, and the wrapping shift
`timePerByte << 1` by `(timePerByte * 2) % 2^32`.
-/

namespace LIN

/-- States of the LIN master state machine (`LIN_Master::state_t`).
Modelled from the spec: the base-class header `LIN_master.h` is not part of
the sources; the spec fixes the transaction state set `{IDLE, BREAK, BODY,
DONE}`. -/
inductive State where
  | STATE_IDLE
  | STATE_BREAK
  | STATE_BODY
  | STATE_DONE
deriving DecidableEq, Repr

/-- Modelled from the spec: error bit for an internal step method invoked in
a state it does not expect (`LIN_Master::ERROR_STATE`, defined in the
base-class header `LIN_master.h` which is not part of the sources). The spec
only fixes that errors form an OR-accumulated bitmask; a concrete single-bit
value is chosen. -/
def ERROR_STATE : Nat := 1

/-- Modelled from the spec: error bit for the transaction deadline elapsing
(`LIN_Master::ERROR_TIMEOUT`, defined in the base-class header
`LIN_master.h` which is not part of the sources). A concrete single-bit
value distinct from `ERROR_STATE` is chosen. -/
def ERROR_TIMEOUT : Nat := 2

/-- The fields of the LIN master object used by the three step methods.
`error` is the accumulated error bitmask, the `time*` fields hold `uint32_t`
microsecond values, `bufTx`/`bufRx` are the frame buffers and
`lenTx`/`lenRx` the transaction's byte counts. -/
structure Master where
  state : State
  error : Nat
  baudrate : Nat
  timePerByte : Nat
  timeStart : Nat
  timeMax : Nat
  timeStartBreak : Nat
  bufTx : List Nat
  lenTx : Nat
  bufRx : List Nat
  lenRx : Nat
deriving DecidableEq, Repr

/-- State of the serial transport (`this->pSerial`): current baud rate, the
pending received bytes (what `available()`/`readBytes` see) and the log of
all bytes written so far. -/
structure Serial where
  baud : Nat
  rxBuf : List Nat
  txLog : List Nat
deriving DecidableEq, Repr

/-- One transport operation, recorded in order of execution. -/
inductive Effect where
  | flush
  | discardInput
  | setBaud (b : Nat)
  | writeByte (b : Nat)
  | writeBytes (bs : List Nat)
  | readBytes (n : Nat)
deriving DecidableEq, Repr

/-- Result of one step method: updated master object, updated transport,
the transport operations performed (in order), and the returned state. -/
structure StepResult where
  m : Master
  ser : Serial
  effects : List Effect
  ret : State
deriving Repr

/-- The modulus of `uint32_t` arithmetic. -/
def U32 : Nat := 2 ^ 32

/-- `uint32_t` subtraction `a - b` with wraparound, as in
`micros() - timeStartBreak`. -/
def u32sub (a b : Nat) : Nat := (a % U32 + U32 - b % U32) % U32

/-- `LIN_Master_HardwareSerial_ESP32::_sendBreak` (lines 23-58 of the cpp):
on wrong state set `ERROR_STATE` and force `STATE_DONE`; otherwise flush the
transport, discard pending input, set half baudrate, write the break byte
`bufTx[0]`, record `timeStartBreak = micros()` and go to `STATE_BREAK`. -/
def sendBreak (m : Master) (ser : Serial) (now : Nat) : StepResult :=
  if m.state ≠ State.STATE_IDLE then
    let m' := { m with error := m.error ||| ERROR_STATE, state := State.STATE_DONE }
    ⟨m', ser, [], m'.state⟩
  else
    let ser' := { ser with rxBuf := [],
                           baud := m.baudrate / 2,
                           txLog := ser.txLog ++ [m.bufTx.headD 0] }
    let m' := { m with timeStartBreak := now % U32, state := State.STATE_BREAK }
    ⟨m', ser',
      [Effect.flush, Effect.discardInput, Effect.setBaud (m.baudrate / 2),
       Effect.writeByte (m.bufTx.headD 0)],
      m'.state⟩

/-- `LIN_Master_HardwareSerial_ESP32::_sendFrame` (lines 67-113 of the cpp):
on wrong state set `ERROR_STATE` and force `STATE_DONE`; else if
`micros() - timeStartBreak > timePerByte << 1` restore the nominal baudrate,
write `bufTx+1 .. lenTx-1` and go to `STATE_BODY`; else if
`micros() - timeStart > timeMax` set `ERROR_TIMEOUT` and force
`STATE_DONE`; else change nothing. -/
def sendFrame (m : Master) (ser : Serial) (now : Nat) : StepResult :=
  if m.state ≠ State.STATE_BREAK then
    let m' := { m with error := m.error ||| ERROR_STATE, state := State.STATE_DONE }
    ⟨m', ser, [], m'.state⟩
  else if u32sub now m.timeStartBreak > m.timePerByte * 2 % U32 then
    let ser' := { ser with baud := m.baudrate,
                           txLog := ser.txLog ++ (m.bufTx.drop 1).take (m.lenTx - 1) }
    let m' := { m with state := State.STATE_BODY }
    ⟨m', ser',
      [Effect.setBaud m.baudrate, Effect.writeBytes ((m.bufTx.drop 1).take (m.lenTx - 1))],
      m'.state⟩
  else if u32sub now m.timeStart > m.timeMax then
    let m' := { m with error := m.error ||| ERROR_TIMEOUT, state := State.STATE_DONE }
    ⟨m', ser, [], m'.state⟩
  else
    ⟨m, ser, [], m.state⟩

/-- `LIN_Master_HardwareSerial_ESP32::_receiveFrame` (lines 122-166 of the
cpp): on wrong state set `ERROR_STATE` and force `STATE_DONE`; else if
`available() >= lenRx` read `lenRx` bytes into `bufRx`, OR the result of
`this->_checkFrame()` into `error` and go to `STATE_DONE`; else if
`micros() - timeStart > timeMax` set `ERROR_TIMEOUT` and force
`STATE_DONE`; else change nothing.  `_checkFrame` is a base-class method not
part of the sources, so it is passed in as a function `cf` of the master
object (it is called after `readBytes` filled `bufRx`). -/
def receiveFrame (cf : Master → Nat) (m : Master) (ser : Serial) (now : Nat) : StepResult :=
  if m.state ≠ State.STATE_BODY then
    let m' := { m with error := m.error ||| ERROR_STATE, state := State.STATE_DONE }
    ⟨m', ser, [], m'.state⟩
  else if ser.rxBuf.length ≥ m.lenRx then
    let mRead := { m with bufRx := ser.rxBuf.take m.lenRx }
    let ser' := { ser with rxBuf := ser.rxBuf.drop m.lenRx }
    let m' := { mRead with error := m.error ||| cf mRead, state := State.STATE_DONE }
    ⟨m', ser', [Effect.readBytes m.lenRx], m'.state⟩
  else if u32sub now m.timeStart > m.timeMax then
    let m' := { m with error := m.error ||| ERROR_TIMEOUT, state := State.STATE_DONE }
    ⟨m', ser, [], m'.state⟩
  else
    ⟨m, ser, [], m.state⟩

/-! ### Concrete fixtures used by the witness theorems -/

/-- A master object in `STATE_IDLE` with a 6-byte frame pending. -/
def mIdle : Master :=
  { state := State.STATE_IDLE, error := 0, baudrate := 19200, timePerByte := 520,
    timeStart := 50, timeMax := 10000, timeStartBreak := 0,
    bufTx := [0, 85, 66, 17, 34, 51], lenTx := 6, bufRx := [], lenRx := 6 }

/-- A master object waiting in `STATE_BREAK`. -/
def mBreak : Master := { mIdle with state := State.STATE_BREAK, timeStartBreak := 100 }

/-- A master object waiting in `STATE_BODY`. -/
def mBody : Master := { mIdle with state := State.STATE_BODY }

/-- A transport with no pending input. -/
def serEmpty : Serial := { baud := 19200, rxBuf := [], txLog := [] }

/-- A transport whose input queue already holds 6 echo bytes. -/
def serFull : Serial := { baud := 19200, rxBuf := [0, 85, 66, 17, 34, 51], txLog := [] }

/-- A trivial stand-in for the frame validation `_checkFrame`. -/
def cf0 : Master → Nat := fun _ => 0

/-- `mBreak` with a deadline small enough to have already expired. -/
def mBreakT : Master := { mBreak with timeMax := 100 }

/-- `mBody` with a deadline small enough to have already expired. -/
def mBodyT : Master := { mBody with timeMax := 100 }

/-- `mBreak` with a deadline hitting the timeout boundary exactly at
`now = 600`. -/
def mBreakEq : Master := { mBreak with timeMax := 550 }

/-- `mBody` with a deadline hitting the timeout boundary exactly at
`now = 600`. -/
def mBodyEq : Master := { mBody with timeMax := 550 }

/-! ### Helper lemmas -/

/-- ORing a bitmask back into a result that already absorbed it changes nothing. -/
theorem or_or_self_left (a b : Nat) : a ||| b ||| a = a ||| b := by
  rw [Nat.or_comm a b, Nat.or_assoc, Nat.or_self]

/-! ### Claims -/

/-- C4: every step method entered with a state other than the one it expects
(`STATE_IDLE` for `_sendBreak`, `STATE_BREAK` for `_sendFrame`, `STATE_BODY`
for `_receiveFrame`) ORs `ERROR_STATE` into the error bitmask, forces the
state to `STATE_DONE`, and returns without transport I/O (empty effect list,
transport unchanged) and without touching any other field of the master
object. -/
theorem C4_wrong_state_aborts (cf : Master → Nat) (m1 m2 m3 : Master)
    (s1 s2 s3 : Serial) (n1 n2 n3 : Nat)
    (h1 : m1.state ≠ State.STATE_IDLE) (h2 : m2.state ≠ State.STATE_BREAK)
    (h3 : m3.state ≠ State.STATE_BODY) :
    sendBreak m1 s1 n1 =
      ⟨{ m1 with error := m1.error ||| ERROR_STATE, state := State.STATE_DONE },
        s1, [], State.STATE_DONE⟩ ∧
    sendFrame m2 s2 n2 =
      ⟨{ m2 with error := m2.error ||| ERROR_STATE, state := State.STATE_DONE },
        s2, [], State.STATE_DONE⟩ ∧
    receiveFrame cf m3 s3 n3 =
      ⟨{ m3 with error := m3.error ||| ERROR_STATE, state := State.STATE_DONE },
        s3, [], State.STATE_DONE⟩ := by
  refine ⟨?_, ?_, ?_⟩
  · simp [sendBreak, h1]
  · simp [sendFrame, h2]
  · simp [receiveFrame, h3]

/-- Witness for C4: all three step methods invoked on concrete wrong-state
machines. -/
theorem C4_wrong_state_aborts_witness :
    sendBreak mBody serEmpty 0 =
      ⟨{ mBody with error := mBody.error ||| ERROR_STATE, state := State.STATE_DONE },
        serEmpty, [], State.STATE_DONE⟩ ∧
    sendFrame mIdle serEmpty 0 =
      ⟨{ mIdle with error := mIdle.error ||| ERROR_STATE, state := State.STATE_DONE },
        serEmpty, [], State.STATE_DONE⟩ ∧
    receiveFrame cf0 mIdle serEmpty 0 =
      ⟨{ mIdle with error := mIdle.error ||| ERROR_STATE, state := State.STATE_DONE },
        serEmpty, [], State.STATE_DONE⟩ :=
  C4_wrong_state_aborts cf0 mBody mIdle mIdle serEmpty serEmpty serEmpty 0 0 0
    (by decide) (by decide) (by decide)

/-- C5: `_sendBreak` entered in `STATE_IDLE` performs, in order: flush,
discard pending input, set baud rate to `baudrate >> 1`, write the break
byte `bufTx[0]`; it records `micros()` in `timeStartBreak`, moves to
`STATE_BREAK` and returns `STATE_BREAK`. -/
theorem C5_sendBreak_idle (m : Master) (ser : Serial) (now : Nat)
    (h : m.state = State.STATE_IDLE) :
    (sendBreak m ser now).effects =
      [Effect.flush, Effect.discardInput, Effect.setBaud (m.baudrate / 2),
       Effect.writeByte (m.bufTx.headD 0)] ∧
    (sendBreak m ser now).ser =
      { ser with rxBuf := [], baud := m.baudrate / 2,
                 txLog := ser.txLog ++ [m.bufTx.headD 0] } ∧
    (sendBreak m ser now).m =
      { m with timeStartBreak := now % U32, state := State.STATE_BREAK } ∧
    (sendBreak m ser now).ret = State.STATE_BREAK := by
  simp [sendBreak, h]

/-- Witness for C5 on a concrete idle machine. -/
theorem C5_sendBreak_idle_witness :
    (sendBreak mIdle serEmpty 777).effects =
      [Effect.flush, Effect.discardInput, Effect.setBaud (mIdle.baudrate / 2),
       Effect.writeByte (mIdle.bufTx.headD 0)] ∧
    (sendBreak mIdle serEmpty 777).ser =
      { serEmpty with rxBuf := [], baud := mIdle.baudrate / 2,
                      txLog := serEmpty.txLog ++ [mIdle.bufTx.headD 0] } ∧
    (sendBreak mIdle serEmpty 777).m =
      { mIdle with timeStartBreak := 777 % U32, state := State.STATE_BREAK } ∧
    (sendBreak mIdle serEmpty 777).ret = State.STATE_BREAK :=
  C5_sendBreak_idle mIdle serEmpty 777 (by decide)

/-- C7: the error bitmask accumulates monotonically — for each of the three
step methods, every bit set in `error` before the call is still set
afterwards (ORing the old mask into the new one changes nothing), for every
entry state and every `_checkFrame` result. -/
theorem C7_error_monotonic (cf : Master → Nat) (m1 m2 m3 : Master)
    (s1 s2 s3 : Serial) (n1 n2 n3 : Nat) :
    (sendBreak m1 s1 n1).m.error ||| m1.error = (sendBreak m1 s1 n1).m.error ∧
    (sendFrame m2 s2 n2).m.error ||| m2.error = (sendFrame m2 s2 n2).m.error ∧
    (receiveFrame cf m3 s3 n3).m.error ||| m3.error = (receiveFrame cf m3 s3 n3).m.error := by
  refine ⟨?_, ?_, ?_⟩
  · unfold sendBreak
    split
    · exact or_or_self_left _ _
    · exact Nat.or_self _
  · unfold sendFrame
    split
    · exact or_or_self_left _ _
    · split
      · exact Nat.or_self _
      · split
        · exact or_or_self_left _ _
        · exact Nat.or_self _
  · unfold receiveFrame
    split
    · exact or_or_self_left _ _
    · split
      · exact or_or_self_left _ _
      · split
        · exact or_or_self_left _ _
        · exact Nat.or_self _

/-- C9: on every path, each step method's return value is exactly the state
field stored in the master object after the call's updates. -/
theorem C9_return_matches_state (cf : Master → Nat) (m1 m2 m3 : Master)
    (s1 s2 s3 : Serial) (n1 n2 n3 : Nat) :
    (sendBreak m1 s1 n1).ret = (sendBreak m1 s1 n1).m.state ∧
    (sendFrame m2 s2 n2).ret = (sendFrame m2 s2 n2).m.state ∧
    (receiveFrame cf m3 s3 n3).ret = (receiveFrame cf m3 s3 n3).m.state := by
  refine ⟨?_, ?_, ?_⟩
  · unfold sendBreak
    split <;> rfl
  · unfold sendFrame
    split
    · rfl
    · split
      · rfl
      · split <;> rfl
  · unfold receiveFrame
    split
    · rfl
    · split
      · rfl
      · split <;> rfl

/-- C1: `_sendFrame` entered in `STATE_BREAK` moves to `STATE_BODY` exactly
when the elapsed time since the break (`micros() - timeStartBreak`, in
`uint32` arithmetic) strictly exceeds two byte-times (`timePerByte << 1`);
on that transition it restores the nominal baud rate and writes the
remaining `lenTx - 1` frame bytes `bufTx[1..lenTx-1]` before returning
`STATE_BODY`. -/
theorem C1_sendFrame_break_transition (m : Master) (ser : Serial) (now : Nat)
    (h : m.state = State.STATE_BREAK) :
    ((sendFrame m ser now).m.state = State.STATE_BODY ↔
      u32sub now m.timeStartBreak > m.timePerByte * 2 % U32) ∧
    (u32sub now m.timeStartBreak > m.timePerByte * 2 % U32 →
      sendFrame m ser now =
        ⟨{ m with state := State.STATE_BODY },
          { ser with baud := m.baudrate,
                     txLog := ser.txLog ++ (m.bufTx.drop 1).take (m.lenTx - 1) },
          [Effect.setBaud m.baudrate,
           Effect.writeBytes ((m.bufTx.drop 1).take (m.lenTx - 1))],
          State.STATE_BODY⟩) := by
  constructor
  · by_cases hc : u32sub now m.timeStartBreak > m.timePerByte * 2 % U32
    · simp [sendFrame, h, hc]
    · by_cases ht : u32sub now m.timeStart > m.timeMax
      · simp [sendFrame, h, hc, ht]
      · simp [sendFrame, h, hc, ht]
  · intro hc
    simp [sendFrame, h, hc]

/-- Witness for C1 on a concrete machine whose break duration has elapsed. -/
theorem C1_sendFrame_break_transition_witness :
    ((sendFrame mBreak serEmpty 5000).m.state = State.STATE_BODY ↔
      u32sub 5000 mBreak.timeStartBreak > mBreak.timePerByte * 2 % U32) ∧
    (u32sub 5000 mBreak.timeStartBreak > mBreak.timePerByte * 2 % U32 →
      sendFrame mBreak serEmpty 5000 =
        ⟨{ mBreak with state := State.STATE_BODY },
          { serEmpty with baud := mBreak.baudrate,
                          txLog := serEmpty.txLog ++
                            (mBreak.bufTx.drop 1).take (mBreak.lenTx - 1) },
          [Effect.setBaud mBreak.baudrate,
           Effect.writeBytes ((mBreak.bufTx.drop 1).take (mBreak.lenTx - 1))],
          State.STATE_BODY⟩) :=
  C1_sendFrame_break_transition mBreak serEmpty 5000 (by decide)

/-- C2: `_receiveFrame` entered in `STATE_BODY` takes the data-arrival path
(a single `readBytes lenRx` transport operation) exactly when the transport
reports at least `lenRx` bytes available; in that case it reads exactly
`lenRx` bytes into `bufRx`, ORs the `_checkFrame` result into the error
bitmask and sets the state to `STATE_DONE`. -/
theorem C2_receiveFrame_body_transition (cf : Master → Nat) (m : Master)
    (ser : Serial) (now : Nat) (h : m.state = State.STATE_BODY) :
    ((receiveFrame cf m ser now).effects = [Effect.readBytes m.lenRx] ↔
      ser.rxBuf.length ≥ m.lenRx) ∧
    (ser.rxBuf.length ≥ m.lenRx →
      receiveFrame cf m ser now =
        ⟨{ m with bufRx := ser.rxBuf.take m.lenRx,
                  error := m.error ||| cf { m with bufRx := ser.rxBuf.take m.lenRx },
                  state := State.STATE_DONE },
          { ser with rxBuf := ser.rxBuf.drop m.lenRx },
          [Effect.readBytes m.lenRx], State.STATE_DONE⟩ ∧
      (receiveFrame cf m ser now).m.bufRx.length = m.lenRx) := by
  constructor
  · by_cases hge : ser.rxBuf.length ≥ m.lenRx
    · simp [receiveFrame, h, hge]
    · by_cases ht : u32sub now m.timeStart > m.timeMax
      · simp [receiveFrame, h, hge, ht]
      · simp [receiveFrame, h, hge, ht]
  · intro hge
    refine ⟨by simp [receiveFrame, h, hge], ?_⟩
    simp [receiveFrame, h, hge, List.length_take]

/-- Witness for C2 on a concrete machine with a full input queue. -/
theorem C2_receiveFrame_body_transition_witness :
    ((receiveFrame cf0 mBody serFull 0).effects = [Effect.readBytes mBody.lenRx] ↔
      serFull.rxBuf.length ≥ mBody.lenRx) ∧
    (serFull.rxBuf.length ≥ mBody.lenRx →
      receiveFrame cf0 mBody serFull 0 =
        ⟨{ mBody with bufRx := serFull.rxBuf.take mBody.lenRx,
                      error := mBody.error |||
                        cf0 { mBody with bufRx := serFull.rxBuf.take mBody.lenRx },
                      state := State.STATE_DONE },
          { serFull with rxBuf := serFull.rxBuf.drop mBody.lenRx },
          [Effect.readBytes mBody.lenRx], State.STATE_DONE⟩ ∧
      (receiveFrame cf0 mBody serFull 0).m.bufRx.length = mBody.lenRx) :=
  C2_receiveFrame_body_transition cf0 mBody serFull 0 (by decide)

/-- C3: when the awaited condition is unmet (break duration not yet elapsed
in `_sendFrame`, fewer than `lenRx` bytes available in `_receiveFrame`) and
the elapsed time since transaction start exceeds `timeMax`, both methods OR
`ERROR_TIMEOUT` into the error bitmask and force `STATE_DONE`, performing no
transport I/O and accepting no bytes (transport and buffers unchanged). -/
theorem C3_timeout_discards (cf : Master → Nat) (m1 m2 : Master)
    (s1 s2 : Serial) (n1 n2 : Nat)
    (h1 : m1.state = State.STATE_BREAK)
    (hb : ¬ u32sub n1 m1.timeStartBreak > m1.timePerByte * 2 % U32)
    (ht1 : u32sub n1 m1.timeStart > m1.timeMax)
    (h2 : m2.state = State.STATE_BODY)
    (ha : s2.rxBuf.length < m2.lenRx)
    (ht2 : u32sub n2 m2.timeStart > m2.timeMax) :
    sendFrame m1 s1 n1 =
      ⟨{ m1 with error := m1.error ||| ERROR_TIMEOUT, state := State.STATE_DONE },
        s1, [], State.STATE_DONE⟩ ∧
    receiveFrame cf m2 s2 n2 =
      ⟨{ m2 with error := m2.error ||| ERROR_TIMEOUT, state := State.STATE_DONE },
        s2, [], State.STATE_DONE⟩ := by
  have ha' : ¬ s2.rxBuf.length ≥ m2.lenRx := by omega
  exact ⟨by simp [sendFrame, h1, hb, ht1], by simp [receiveFrame, h2, ha', ht2]⟩

/-- Witness for C3 on concrete machines whose deadline has expired while
still waiting. -/
theorem C3_timeout_discards_witness :
    sendFrame mBreakT serEmpty 600 =
      ⟨{ mBreakT with error := mBreakT.error ||| ERROR_TIMEOUT,
                      state := State.STATE_DONE },
        serEmpty, [], State.STATE_DONE⟩ ∧
    receiveFrame cf0 mBodyT serEmpty 600 =
      ⟨{ mBodyT with error := mBodyT.error ||| ERROR_TIMEOUT,
                     state := State.STATE_DONE },
        serEmpty, [], State.STATE_DONE⟩ :=
  C3_timeout_discards cf0 mBreakT mBodyT serEmpty serEmpty 600 600
    (by decide) (by decide) (by decide) (by decide) (by decide) (by decide)

/-- C6: while waiting (break duration not elapsed, resp. too few bytes
available), both methods time out exactly when `micros() - timeStart` is
strictly greater than `timeMax`; an elapsed time exactly equal to `timeMax`
leaves both methods entirely unchanged. -/
theorem C6_timeout_strict_boundary (cf : Master → Nat) (m1 m2 : Master)
    (s1 s2 : Serial) (n1 n2 : Nat)
    (h1 : m1.state = State.STATE_BREAK)
    (hb : ¬ u32sub n1 m1.timeStartBreak > m1.timePerByte * 2 % U32)
    (h2 : m2.state = State.STATE_BODY)
    (ha : s2.rxBuf.length < m2.lenRx) :
    ((sendFrame m1 s1 n1).m.state = State.STATE_DONE ∧
      (sendFrame m1 s1 n1).m.error = m1.error ||| ERROR_TIMEOUT ↔
        u32sub n1 m1.timeStart > m1.timeMax) ∧
    ((receiveFrame cf m2 s2 n2).m.state = State.STATE_DONE ∧
      (receiveFrame cf m2 s2 n2).m.error = m2.error ||| ERROR_TIMEOUT ↔
        u32sub n2 m2.timeStart > m2.timeMax) ∧
    (u32sub n1 m1.timeStart = m1.timeMax →
      sendFrame m1 s1 n1 = ⟨m1, s1, [], m1.state⟩) ∧
    (u32sub n2 m2.timeStart = m2.timeMax →
      receiveFrame cf m2 s2 n2 = ⟨m2, s2, [], m2.state⟩) := by
  have ha' : ¬ s2.rxBuf.length ≥ m2.lenRx := by omega
  refine ⟨?_, ?_, ?_, ?_⟩
  · by_cases ht : u32sub n1 m1.timeStart > m1.timeMax
    · simp [sendFrame, h1, hb, ht]
    · simp [sendFrame, h1, hb, ht]
  · by_cases ht : u32sub n2 m2.timeStart > m2.timeMax
    · simp [receiveFrame, h2, ha', ht]
    · simp [receiveFrame, h2, ha', ht]
  · intro he
    have ht : ¬ u32sub n1 m1.timeStart > m1.timeMax := by omega
    simp [sendFrame, h1, hb, ht]
  · intro he
    have ht : ¬ u32sub n2 m2.timeStart > m2.timeMax := by omega
    simp [receiveFrame, h2, ha', ht]

/-- Witness for C6 on concrete machines sitting exactly on the timeout
boundary (`elapsed = timeMax = 550` at `now = 600`). -/
theorem C6_timeout_strict_boundary_witness :
    ((sendFrame mBreakEq serEmpty 600).m.state = State.STATE_DONE ∧
      (sendFrame mBreakEq serEmpty 600).m.error = mBreakEq.error ||| ERROR_TIMEOUT ↔
        u32sub 600 mBreakEq.timeStart > mBreakEq.timeMax) ∧
    ((receiveFrame cf0 mBodyEq serEmpty 600).m.state = State.STATE_DONE ∧
      (receiveFrame cf0 mBodyEq serEmpty 600).m.error = mBodyEq.error ||| ERROR_TIMEOUT ↔
        u32sub 600 mBodyEq.timeStart > mBodyEq.timeMax) ∧
    (u32sub 600 mBreakEq.timeStart = mBreakEq.timeMax →
      sendFrame mBreakEq serEmpty 600 = ⟨mBreakEq, serEmpty, [], mBreakEq.state⟩) ∧
    (u32sub 600 mBodyEq.timeStart = mBodyEq.timeMax →
      receiveFrame cf0 mBodyEq serEmpty 600 = ⟨mBodyEq, serEmpty, [], mBodyEq.state⟩) :=
  C6_timeout_strict_boundary cf0 mBreakEq mBodyEq serEmpty serEmpty 600 600
    (by decide) (by decide) (by decide) (by decide)

/-- C8: waiting is effect-free — if neither the awaited condition nor the
deadline has been reached, `_sendFrame` (in `STATE_BREAK`) and
`_receiveFrame` (in `STATE_BODY`) return with the master object and the
transport exactly as on entry and an empty effect list. -/
theorem C8_wait_is_noop (cf : Master → Nat) (m1 m2 : Master)
    (s1 s2 : Serial) (n1 n2 : Nat)
    (h1 : m1.state = State.STATE_BREAK)
    (hb : ¬ u32sub n1 m1.timeStartBreak > m1.timePerByte * 2 % U32)
    (ht1 : ¬ u32sub n1 m1.timeStart > m1.timeMax)
    (h2 : m2.state = State.STATE_BODY)
    (ha : s2.rxBuf.length < m2.lenRx)
    (ht2 : ¬ u32sub n2 m2.timeStart > m2.timeMax) :
    sendFrame m1 s1 n1 = ⟨m1, s1, [], m1.state⟩ ∧
    receiveFrame cf m2 s2 n2 = ⟨m2, s2, [], m2.state⟩ := by
  have ha' : ¬ s2.rxBuf.length ≥ m2.lenRx := by omega
  exact ⟨by simp [sendFrame, h1, hb, ht1], by simp [receiveFrame, h2, ha', ht2]⟩

/-- Witness for C8 on concrete machines still inside both waiting windows. -/
theorem C8_wait_is_noop_witness :
    sendFrame mBreak serEmpty 600 = ⟨mBreak, serEmpty, [], mBreak.state⟩ ∧
    receiveFrame cf0 mBody serEmpty 600 = ⟨mBody, serEmpty, [], mBody.state⟩ :=
  C8_wait_is_noop cf0 mBreak mBody serEmpty serEmpty 600 600
    (by decide) (by decide) (by decide) (by decide) (by decide) (by decide)

/-- C10: progress takes precedence over the deadline — with the break
duration already elapsed, `_sendFrame` moves to `STATE_BODY` with the error
bitmask untouched, and with at least `lenRx` bytes available,
`_receiveFrame` moves to `STATE_DONE` ORing only the `_checkFrame` result,
in both cases even though `micros() - timeStart` already exceeds
`timeMax`. -/
theorem C10_progress_beats_timeout (cf : Master → Nat) (m1 m2 : Master)
    (s1 s2 : Serial) (n1 n2 : Nat)
    (h1 : m1.state = State.STATE_BREAK)
    (hb : u32sub n1 m1.timeStartBreak > m1.timePerByte * 2 % U32)
    (ht1 : u32sub n1 m1.timeStart > m1.timeMax)
    (h2 : m2.state = State.STATE_BODY)
    (ha : s2.rxBuf.length ≥ m2.lenRx)
    (ht2 : u32sub n2 m2.timeStart > m2.timeMax) :
    (sendFrame m1 s1 n1).m.state = State.STATE_BODY ∧
    (sendFrame m1 s1 n1).m.error = m1.error ∧
    (receiveFrame cf m2 s2 n2).m.state = State.STATE_DONE ∧
    (receiveFrame cf m2 s2 n2).m.error =
      m2.error ||| cf { m2 with bufRx := s2.rxBuf.take m2.lenRx } := by
  refine ⟨?_, ?_, ?_, ?_⟩
  · simp [sendFrame, h1, hb]
  · simp [sendFrame, h1, hb]
  · simp [receiveFrame, h2, ha]
  · simp [receiveFrame, h2, ha]

/-- Witness for C10 on concrete machines whose deadline has long expired but
whose awaited condition holds. -/
theorem C10_progress_beats_timeout_witness :
    (sendFrame mBreakT serEmpty 5000).m.state = State.STATE_BODY ∧
    (sendFrame mBreakT serEmpty 5000).m.error = mBreakT.error ∧
    (receiveFrame cf0 mBodyT serFull 5000).m.state = State.STATE_DONE ∧
    (receiveFrame cf0 mBodyT serFull 5000).m.error =
      mBodyT.error ||| cf0 { mBodyT with bufRx := serFull.rxBuf.take mBodyT.lenRx } :=
  C10_progress_beats_timeout cf0 mBreakT mBodyT serEmpty serFull 5000 5000
    (by decide) (by decide) (by decide) (by decide) (by decide) (by decide)

end LIN
